import Mathlib

/-!
Shallow embedding of the core of `fastify-webhook-verify`: the provider
abstraction (src/providers/*.ts), the timing-safe comparator (src/utils.ts),
the replay guard (src/replay-protection.ts) and the verification orchestrator
(`createVerifyHandler` in src/plugin.ts).

Modelling conventions:
* Node `Buffer` contents and raw bodies are Lean `String`s; decoded byte
  buffers are `List Nat`.
* A JavaScript `Date` is `JsDate := Option Int` of epoch milliseconds, with
  `none` standing for an Invalid Date (`getTime()` returning `NaN`).
* The HMAC primitive (`crypto.createHmac(...).update(p).digest(enc)`) is an
  uninterpreted parameter `HmacFn`: every claim is about which algorithm,
  encoding, secret and payload the code feeds it, never about SHA internals.
* Thrown JS exceptions become `Except`; the orchestrator's error classes
  (src/errors.ts) become the inductive `WErr`, with `WErr.providerError`
  standing for a raw provider `Error` that propagates uncaught.
* Header keys are assumed already lowercased (Fastify lowercases incoming
  header names; providers store lowercase header names).
-/

namespace FWV

/-- Signature digest encodings supported by the library. -/
inductive Enc
  | hex
  | base64
deriving DecidableEq

/-- HMAC algorithms supported by the library. -/
inductive Alg
  | sha1
  | sha256
  | sha512
deriving DecidableEq

/-- Uninterpreted HMAC: algorithm → digest encoding → secret → payload → digest
string.  Models `BaseProvider.createHmac` in src/providers/base.ts. -/
def HmacFn := Alg → Enc → String → String → String

/-- Value of a hexadecimal digit, as `Buffer.from(·, 'hex')` reads it. -/
def hexDigit (c : Char) : Option Nat :=
  if '0' ≤ c ∧ c ≤ '9' then some (c.toNat - '0'.toNat)
  else if 'a' ≤ c ∧ c ≤ 'f' then some (c.toNat - 'a'.toNat + 10)
  else if 'A' ≤ c ∧ c ≤ 'F' then some (c.toNat - 'A'.toNat + 10)
  else none

/-- Node hex decoding: bytes are read from pairs of hex digits; decoding stops
at the first invalid pair or at an odd trailing character (`Buffer.from`
truncates instead of throwing). -/
def hexDecodeAux : List Char → List Nat
  | c1 :: c2 :: rest =>
    match hexDigit c1, hexDigit c2 with
    | some hi, some lo => (16 * hi + lo) :: hexDecodeAux rest
    | _, _ => []
  | _ => []

def hexDecode (s : String) : List Nat :=
  hexDecodeAux s.toList

/-- Value of a base64 digit.  Node's 'base64' decoder also accepts the
base64url alphabet. -/
def b64Digit (c : Char) : Option Nat :=
  if 'A' ≤ c ∧ c ≤ 'Z' then some (c.toNat - 'A'.toNat)
  else if 'a' ≤ c ∧ c ≤ 'z' then some (c.toNat - 'a'.toNat + 26)
  else if '0' ≤ c ∧ c ≤ '9' then some (c.toNat - '0'.toNat + 52)
  else if c = '+' ∨ c = '-' then some 62
  else if c = '/' ∨ c = '_' then some 63
  else none

/-- Keep the base64 digits up to the first padding character, skipping
characters outside the alphabet (Node's forgiving decoder). -/
def b64Sextets : List Char → List Nat
  | [] => []
  | c :: rest =>
    if c = '=' then []
    else
      match b64Digit c with
      | some v => v :: b64Sextets rest
      | none => b64Sextets rest

/-- Reassemble bytes from 6-bit groups: 4 sextets give 3 bytes, a trailing
group of 3 gives 2 bytes, of 2 gives 1 byte, of 1 gives nothing. -/
def b64Bytes : List Nat → List Nat
  | a :: b :: c :: d :: rest =>
    (a * 4 + b / 16) :: ((b % 16) * 16 + c / 4) :: ((c % 4) * 64 + d) :: b64Bytes rest
  | [a, b] => [a * 4 + b / 16]
  | [a, b, c] => [a * 4 + b / 16, (b % 16) * 16 + c / 4]
  | _ => []

def base64Decode (s : String) : List Nat :=
  b64Bytes (b64Sextets s.toList)

/-- `Buffer.from(s, encoding)` for the two encodings the library uses. -/
def decodeBuf : Enc → String → List Nat
  | Enc.hex, s => hexDecode s
  | Enc.base64, s => base64Decode s

/-- `crypto.timingSafeEqual` on two equal-length buffers: byte equality. -/
def timingSafeEqual (a b : List Nat) : Bool :=
  a == b

/-- `timingSafeCompare` from src/utils.ts: decode both strings, return false
on a length mismatch, otherwise timing-safe byte equality.  The TS `try/catch`
returning `false` makes the function total; in the model totality is by
construction. -/
def timingSafeCompare (a b : String) (encoding : Enc) : Bool :=
  let bufA := decodeBuf encoding a
  let bufB := decodeBuf encoding b
  if bufA.length ≠ bufB.length then false
  else timingSafeEqual bufA bufB

/-- Split a character list on a separator character (JS `String.split` with a
one-character separator, as used with `','` and `'='`). -/
def splitOnCharAux (sep : Char) : List Char → List Char → List (List Char)
  | [], acc => [acc.reverse]
  | c :: rest, acc =>
    if c = sep then acc.reverse :: splitOnCharAux sep rest []
    else splitOnCharAux sep rest (c :: acc)

/-- JS `s.split(sep)` for a one-character separator. -/
def jsSplit (sep : Char) (s : String) : List String :=
  (splitOnCharAux sep s.toList []).map String.mk

/-- `s.startsWith(p)`. -/
def jsStartsWith (p s : String) : Bool :=
  p.toList.isPrefixOf s.toList

/-- `s.slice(n)` (drop the first `n` characters). -/
def jsDrop (n : Nat) (s : String) : String :=
  String.mk (s.toList.drop n)

/-- ASCII lowercasing of a header name (`String.prototype.toLowerCase` on the
ASCII header names the library handles). -/
def asciiLower (s : String) : String :=
  String.mk (s.toList.map (fun c =>
    if 'A' ≤ c ∧ c ≤ 'Z' then Char.ofNat (c.toNat + 32) else c))

/-- A JavaScript `Date` as its `getTime()` value in epoch milliseconds;
`none` is an Invalid Date (`getTime()` is `NaN`). -/
abbrev JsDate := Option Int

/-- JS `parseInt(s, 10)`: trim, optional sign, leading decimal digits;
`none` models `NaN`. -/
def jsParseInt (s : String) : Option Int :=
  let isWs : Char → Bool := fun c => c = ' ' ∨ c = '\t' ∨ c = '\n' ∨ c = '\r'
  let t := s.toList.dropWhile isWs
  let signAndRest : Int × List Char :=
    match t with
    | '-' :: r => (-1, r)
    | '+' :: r => (1, r)
    | r => (1, r)
  let isDig : Char → Bool := fun c => '0' ≤ c ∧ c ≤ '9'
  let digits := signAndRest.2.takeWhile isDig
  if digits.isEmpty then none
  else
    some (signAndRest.1 *
      (digits.foldl (fun acc c => acc * 10 + (c.toNat - '0'.toNat)) (0 : Nat) : Nat))

/-- `new Date(seconds * 1000)` applied to a possibly-NaN `parseInt` result. -/
def dateOfSeconds (o : Option Int) : JsDate :=
  o.map (· * 1000)

/-- `String(Math.floor(date.getTime() / 1000))`; an Invalid Date prints as
`NaN`. -/
def epochSecondsStr : JsDate → String
  | some v => toString (Int.fdiv v 1000)
  | none => "NaN"

/-- `String(date.getTime())`, used to build the nonce; `NaN` for an Invalid
Date. -/
def jsTimeStr : JsDate → String
  | some v => toString v
  | none => "NaN"

/-- `Math.abs(now - date.getTime()) > tolerance`; any comparison with `NaN`
is false. -/
def jsAbsGt (now : Int) (d : JsDate) (tolerance : Int) : Bool :=
  match d with
  | some v => decide (tolerance < |now - v|)
  | none => false

/-- `CustomProviderConfig` from src/types.ts.  The optional user hooks are
total Lean functions, matching their declared TS types. -/
structure CustomProviderConfig where
  name : String
  signatureHeader : String
  timestampHeader : Option String := none
  algorithm : Alg
  extractSignature : Option (String → String) := none
  buildPayload : Option (String → Option String → String) := none
  signatureEncoding : Option Enc := none

/-- The provider set: the five built-in classes (src/providers/*.ts) plus the
parameterized custom provider. -/
inductive Provider
  | stripe
  | github
  | slack
  | shopify
  | twilio
  | custom (cfg : CustomProviderConfig)

/-- `provider.signatureHeader` (the constructor of each provider class;
`CustomProvider` lowercases the configured header). -/
def Provider.sigHeader : Provider → String
  | .stripe => "stripe-signature"
  | .github => "x-hub-signature-256"
  | .slack => "x-slack-signature"
  | .shopify => "x-shopify-hmac-sha256"
  | .twilio => "x-twilio-signature"
  | .custom cfg => asciiLower cfg.signatureHeader

/-- `provider.timestampHeader`: only Slack and (optionally) custom providers
declare one. -/
def Provider.tsHeader : Provider → Option String
  | .slack => some "x-slack-request-timestamp"
  | .custom cfg => cfg.timestampHeader.map asciiLower
  | _ => none

/-- `provider.signatureEncoding`. -/
def Provider.encoding : Provider → Enc
  | .shopify => Enc.base64
  | .twilio => Enc.base64
  | .custom cfg => cfg.signatureEncoding.getD Enc.hex
  | _ => Enc.hex

/-- `provider.algorithm`. -/
def Provider.alg : Provider → Alg
  | .twilio => Alg.sha1
  | .custom cfg => cfg.algorithm
  | _ => Alg.sha256

/-- Scan the `k=v` parts of a comma-separated header for a given key with a
truthy (non-empty) value, as Stripe's `for`-loop over
`headerValue.split(',')` with `const [key, value] = part.split('=')` does. -/
def scanParts (key : String) : List String → Option String
  | [] => none
  | p :: rest =>
    let kv := jsSplit '=' p
    match kv.get? 1 with
    | some v => if kv.get? 0 = some key ∧ v ≠ "" then some v else scanParts key rest
    | none => scanParts key rest

/-- `provider.extractSignature(headerValue)`; `Except.error` is a thrown
provider `Error` with the thrown message. -/
def Provider.extractSig : Provider → String → Except String String
  | .stripe, hv =>
    match scanParts "v1" (jsSplit ',' hv) with
    | some v => Except.ok v
    | none => Except.error "No v1 signature found in Stripe-Signature header"
  | .github, hv =>
    if jsStartsWith "sha256=" hv then Except.ok (jsDrop 7 hv)
    else Except.error "Invalid GitHub signature format"
  | .slack, hv =>
    if jsStartsWith "v0=" hv then Except.ok (jsDrop 3 hv)
    else Except.error "Invalid Slack signature format"
  | .shopify, hv => Except.ok hv
  | .twilio, hv => Except.ok hv
  | .custom cfg, hv =>
    match cfg.extractSignature with
    | some f => Except.ok (f hv)
    | none => Except.ok hv

/-- `provider.parseTimestamp(headerValue)`: the base implementation is
`new Date(parseInt(headerValue, 10) * 1000)` and never throws; Stripe
overrides it to scan the signature header for `t=` and throws when the field
is absent. -/
def Provider.parseTimestamp : Provider → String → Except String JsDate
  | .stripe, hv =>
    match scanParts "t" (jsSplit ',' hv) with
    | some v => Except.ok (dateOfSeconds (jsParseInt v))
    | none => Except.error "No timestamp found in Stripe-Signature header"
  | _, hv => Except.ok (dateOfSeconds (jsParseInt hv))

/-- `provider.computeSignature(rawBody, secret, timestamp)`.  Stripe signs
`"{epochSeconds}.{body}"` and Slack `"v0:{epochSeconds}:{body}"`, and both
throw when called without a timestamp; the others sign the raw body. -/
def Provider.computeSig (hmac : HmacFn) :
    Provider → String → String → Option JsDate → Except String String
  | .stripe, body, secret, ts =>
    match ts with
    | none => Except.error "Timestamp is required for Stripe webhook verification"
    | some d => Except.ok (hmac Alg.sha256 Enc.hex secret (epochSecondsStr d ++ "." ++ body))
  | .slack, body, secret, ts =>
    match ts with
    | none => Except.error "Timestamp is required for Slack webhook verification"
    | some d =>
      Except.ok (hmac Alg.sha256 Enc.hex secret ("v0:" ++ epochSecondsStr d ++ ":" ++ body))
  | .github, body, secret, _ => Except.ok (hmac Alg.sha256 Enc.hex secret body)
  | .shopify, body, secret, _ => Except.ok (hmac Alg.sha256 Enc.base64 secret body)
  | .twilio, body, secret, _ => Except.ok (hmac Alg.sha1 Enc.base64 secret body)
  | .custom cfg, body, secret, ts =>
    match cfg.buildPayload with
    | some f =>
      Except.ok (hmac cfg.algorithm (cfg.signatureEncoding.getD Enc.hex) secret
        (f body (ts.map epochSecondsStr)))
    | none => Except.ok (hmac cfg.algorithm (cfg.signatureEncoding.getD Enc.hex) secret body)

/-- A parsed JSON body field: the orchestrator only ever asks whether
`body.type` is a string. -/
inductive JsVal
  | str (s : String)
  | notStr
deriving DecidableEq

/-- `provider.extractEventType(body)`: Stripe and Slack read `body.type` when
it is a string; every other provider (including custom, which inherits the
base) returns undefined. -/
def Provider.eventType : Provider → List (String × JsVal) → Option String
  | .stripe, body =>
    match body.lookup "type" with
    | some (JsVal.str s) => some s
    | _ => none
  | .slack, body =>
    match body.lookup "type" with
    | some (JsVal.str s) => some s
    | _ => none
  | _, _ => none

/-- The error classes of src/errors.ts, plus `providerError` for a raw
provider-thrown `Error` that the orchestrator does not catch, and
`customConfigRequired` for the plain `Error` thrown by `getProvider`. -/
inductive WErr
  | missingSecret (provider : String)
  | missingRawBody
  | unknownProvider (provider : String)
  | customConfigRequired
  | missingSignature (provider : String)
  | invalidSignature (provider : String)
  | timestampExpired (provider : String) (timestamp : JsDate) (tolerance : Int)
  | replayAttack (provider : String)
  | providerError (message : String)
deriving DecidableEq

/-- `getProvider` from src/providers/index.ts: the five built-in names map to
fresh instances, `custom` demands a config, anything else is an unknown
provider carrying the offending name. -/
def getProvider (name : String) (customConfig : Option CustomProviderConfig) :
    Except WErr Provider :=
  if name = "custom" then
    match customConfig with
    | none => Except.error WErr.customConfigRequired
    | some cfg => Except.ok (Provider.custom cfg)
  else if name = "stripe" then Except.ok Provider.stripe
  else if name = "github" then Except.ok Provider.github
  else if name = "slack" then Except.ok Provider.slack
  else if name = "shopify" then Except.ok Provider.shopify
  else if name = "twilio" then Except.ok Provider.twilio
  else Except.error (WErr.unknownProvider name)

/-- The `Map<string, number>` of `InMemoryReplayStorage`
(src/replay-protection.ts) as an association list nonce ↦ expiresAt. -/
abbrev NonceStore := List (String × Int)

/-- `InMemoryReplayStorage.has`: membership, ignoring the stored expiry. -/
def storeHas (st : NonceStore) (nonce : String) : Bool :=
  (st.lookup nonce).isSome

/-- `Map.set`: replace the entry if the key exists, else append. -/
def storeSet (st : NonceStore) (nonce : String) (expiresAt : Int) : NonceStore :=
  match st with
  | [] => [(nonce, expiresAt)]
  | (k, v) :: rest =>
    if k = nonce then (k, expiresAt) :: rest
    else (k, v) :: storeSet rest nonce expiresAt

/-- `InMemoryReplayStorage.cleanup`: delete every entry whose `expiresAt` is
in the past. -/
def storeCleanup (now : Int) (st : NonceStore) : NonceStore :=
  st.filter (fun kv => !decide (kv.2 < now))

/-- `ReplayProtectionConfig` from src/types.ts (the `storage` override is not
modelled; claims are about the default in-memory store). -/
structure ReplayProtectionConfig where
  enabled : Bool
  tolerance : Option Int := none

/-- The plugin's `DEFAULT_REPLAY_PROTECTION`. -/
def DEFAULT_REPLAY_PROTECTION : ReplayProtectionConfig :=
  { enabled := true, tolerance := some 300 }

/-- `Partial<ReplayProtectionConfig>` used as the per-route override; `none`
fields are absent keys. -/
structure ReplayOverride where
  enabled : Option Bool := none
  tolerance : Option Int := none

/-- The spread merge `{ ...replayProtection, ...routeOptions.replayProtection }`:
keys present in the override win. -/
def mergeRP (g : ReplayProtectionConfig) (o : Option ReplayOverride) :
    ReplayProtectionConfig :=
  match o with
  | none => g
  | some ov =>
    { enabled := ov.enabled.getD g.enabled,
      tolerance :=
        match ov.tolerance with
        | some t => some t
        | none => g.tolerance }

/-- Plugin-level options the orchestrator consults: per-provider secrets and
the global replay-protection config (the plugin substitutes
`DEFAULT_REPLAY_PROTECTION` when the caller passes none). -/
structure PluginOpts where
  providers : List (String × String) := []
  replayProtection : ReplayProtectionConfig := DEFAULT_REPLAY_PROTECTION

/-- `WebhookRouteOptions` from src/types.ts. -/
structure RouteOpts where
  provider : String
  secret : Option String := none
  customConfig : Option CustomProviderConfig := none
  replayProtection : Option ReplayOverride := none

/-- The slice of a Fastify request the orchestrator reads: lowercased headers,
the captured raw body (absent when the raw-body parser did not run), and the
parsed JSON body's string-valued fields. -/
structure Request where
  headers : List (String × String) := []
  rawBody : Option String := none
  body : List (String × JsVal) := []

/-- `request.webhook` payload (`WebhookData` in src/types.ts). -/
structure WebhookData where
  verified : Bool
  provider : String
  timestamp : Option JsDate
  rawBody : String
  eventType : Option String
deriving DecidableEq

/-- A call on the replay guard, for stating ordering/frame properties. -/
inductive StoreOp
  | check (nonce : String)
  | record (nonce : String)
deriving DecidableEq

/-- Secret resolution at the top of `createVerifyHandler`: the route secret
if truthy, else (for non-custom providers) the plugin's per-provider secret;
a still-falsy secret (absent or empty) is `MissingSecretError`.  JS
truthiness makes the empty string count as missing. -/
def resolveSecret (opts : PluginOpts) (route : RouteOpts) : Except WErr String :=
  let s0 : Option String :=
    match route.secret with
    | some s => if s = "" then none else some s
    | none => none
  let s1 : Option String :=
    match s0 with
    | some s => some s
    | none =>
      if route.provider ≠ "custom" then
        match opts.providers.lookup route.provider with
        | some s => if s = "" then none else some s
        | none => none
      else none
  match s1 with
  | some s => Except.ok s
  | none => Except.error (WErr.missingSecret route.provider)

/-- Header lookup with the orchestrator's truthiness test
(`!value || typeof value !== 'string'`): an empty string counts as absent. -/
def truthyHeader (headers : List (String × String)) (k : String) : Option String :=
  match headers.lookup k with
  | some s => if s = "" then none else some s
  | none => none

/-- Step 4 of the handler: read the timestamp from the provider's timestamp
header when it declares one, else (for the `stripe` route) parse it out of
the signature header.  A throwing `parseTimestamp` propagates uncaught as a
raw provider error. -/
def extractTimestampStep (provider : Provider) (providerName : String)
    (req : Request) (signatureHeader : String) : Except WErr (Option JsDate) :=
  match provider.tsHeader with
  | some h =>
    match truthyHeader req.headers h with
    | some tsv =>
      match provider.parseTimestamp tsv with
      | Except.ok d => Except.ok (some d)
      | Except.error m => Except.error (WErr.providerError m)
    | none => Except.ok none
  | none =>
    if providerName = "stripe" then
      match provider.parseTimestamp signatureHeader with
      | Except.ok d => Except.ok (some d)
      | Except.error m => Except.error (WErr.providerError m)
    else Except.ok none

/-- Step 5 of the handler: when the effective replay config is enabled and a
timestamp exists, fail with `TimestampExpired` if `|now − timestamp|` exceeds
the tolerance (seconds, default 300, compared in milliseconds). -/
def freshnessCheck (providerName : String) (rpEff : ReplayProtectionConfig)
    (now : Int) (timestamp : Option JsDate) : Option WErr :=
  match timestamp with
  | some d =>
    if rpEff.enabled && jsAbsGt now d ((rpEff.tolerance.getD 300) * 1000) then
      some (WErr.timestampExpired providerName d (rpEff.tolerance.getD 300))
    else none
  | none => none

/-- What the handler has established once the timing-safe comparison has
succeeded: the resolved provider, the extracted signature token, the
timestamp (if any) and the raw body. -/
structure PreOk where
  provider : Provider
  signature : String
  timestamp : Option JsDate
  rawBody : String

/-- Step 6 of `createVerifyHandler`: extract the signature token (a thrown
extractor error is caught and mapped to `InvalidSignature`), compute the
expected signature (a thrown provider error propagates raw), and run the
timing-safe comparison (a mismatch is `InvalidSignature`). -/
def signatureStage (hmac : HmacFn) (providerName : String) (provider : Provider)
    (signatureHeader secret rawBody : String) (timestamp : Option JsDate) :
    Except WErr PreOk :=
  match provider.extractSig signatureHeader with
  | Except.error _ => Except.error (WErr.invalidSignature providerName)
  | Except.ok signature =>
  match provider.computeSig hmac rawBody secret timestamp with
  | Except.error m => Except.error (WErr.providerError m)
  | Except.ok expected =>
  if timingSafeCompare signature expected provider.encoding then
    Except.ok { provider, signature, timestamp, rawBody }
  else Except.error (WErr.invalidSignature providerName)

/-- Steps 1–6 of `createVerifyHandler` (everything before the replay check):
secret resolution, raw-body presence, provider resolution, signature header
presence, timestamp extraction, freshness, then the signature stage. -/
def preVerify (hmac : HmacFn) (opts : PluginOpts) (route : RouteOpts)
    (req : Request) (now : Int) : Except WErr PreOk :=
  match resolveSecret opts route with
  | Except.error e => Except.error e
  | Except.ok secret =>
  match req.rawBody with
  | none => Except.error WErr.missingRawBody
  | some rawBody =>
  match getProvider route.provider route.customConfig with
  | Except.error e => Except.error e
  | Except.ok provider =>
  match truthyHeader req.headers provider.sigHeader with
  | none => Except.error (WErr.missingSignature route.provider)
  | some signatureHeader =>
  match extractTimestampStep provider route.provider req signatureHeader with
  | Except.error e => Except.error e
  | Except.ok timestamp =>
  let rpEff := mergeRP opts.replayProtection route.replayProtection
  match freshnessCheck route.provider rpEff now timestamp with
  | some e => Except.error e
  | none =>
  signatureStage hmac route.provider provider signatureHeader secret rawBody timestamp

/-- The outcome of one verification: the handler's result, the nonce store
after the call, and the guard operations performed. -/
structure VrOut where
  result : Except WErr WebhookData
  store : NonceStore
  ops : List StoreOp

/-- The nonce `${providerName}:${signature}:${timestamp.getTime()}`. -/
def nonceOf (providerName signature : String) (d : JsDate) : String :=
  providerName ++ ":" ++ signature ++ ":" ++ jsTimeStr d

/-- The `request.webhook` data built on success. -/
def mkData (route : RouteOpts) (req : Request) (pre : PreOk) : WebhookData :=
  { verified := true,
    provider := route.provider,
    timestamp := pre.timestamp,
    rawBody := pre.rawBody,
    eventType := pre.provider.eventType req.body }

/-- One run of the route handler returned by `createVerifyHandler`, over an
explicit nonce store.  The replay check runs only when the plugin-level guard
exists (global `replayProtection.enabled`), the effective per-request config
is enabled, and a timestamp exists; the guard records with expiry
`now + globalTolerance·1000` (the guard is built from the global config). -/
def verify (hmac : HmacFn) (opts : PluginOpts) (route : RouteOpts)
    (req : Request) (now : Int) (store : NonceStore) : VrOut :=
  match preVerify hmac opts route req now with
  | Except.error e => { result := Except.error e, store := store, ops := [] }
  | Except.ok pre =>
    let rpEff := mergeRP opts.replayProtection route.replayProtection
    match pre.timestamp with
    | some d =>
      if opts.replayProtection.enabled && rpEff.enabled then
        let nonce := nonceOf route.provider pre.signature d
        if storeHas store nonce then
          { result := Except.error (WErr.replayAttack route.provider),
            store := store,
            ops := [StoreOp.check nonce] }
        else
          { result := Except.ok (mkData route req pre),
            store := storeSet store nonce (now + (opts.replayProtection.tolerance.getD 300) * 1000),
            ops := [StoreOp.check nonce, StoreOp.record nonce] }
      else { result := Except.ok (mkData route req pre), store := store, ops := [] }
    | none => { result := Except.ok (mkData route req pre), store := store, ops := [] }

instance {e a : Type} [DecidableEq e] [DecidableEq a] : DecidableEq (Except e a) := fun x y =>
  match x, y with
  | Except.ok v, Except.ok w =>
    if h : v = w then isTrue (by rw [h]) else isFalse (by intro hc; cases hc; exact h rfl)
  | Except.error v, Except.error w =>
    if h : v = w then isTrue (by rw [h]) else isFalse (by intro hc; cases hc; exact h rfl)
  | Except.ok _, Except.error _ => isFalse (by intro hc; cases hc)
  | Except.error _, Except.ok _ => isFalse (by intro hc; cases hc)

/-- Setting a nonce makes it present (`Map.set` then `Map.has`). -/
theorem storeHas_storeSet_self (st : NonceStore) (n : String) (e : Int) :
    storeHas (storeSet st n e) n = true := by
  induction st with
  | nil => simp only [storeSet, storeHas, List.lookup, beq_self_eq_true, Option.isSome_some]
  | cons kv rest ih =>
    rcases kv with ⟨k, v⟩
    by_cases h : k = n
    · subst h
      simp only [storeSet, if_pos rfl, storeHas, List.lookup, beq_self_eq_true,
        Option.isSome_some]
    · have hne : (n == k) = false := by
        simp only [beq_eq_false_iff_ne, ne_eq]
        exact Ne.symm h
      simp only [storeSet, if_neg h, storeHas, List.lookup, hne]
      exact ih

/-- An error leaving the signature stage is either the mapped
`InvalidSignature` or a raw provider error from `computeSignature`. -/
theorem signatureStage_error_shape {hmac : HmacFn} {providerName : String}
    {provider : Provider} {signatureHeader secret rawBody : String}
    {timestamp : Option JsDate} {e : WErr}
    (h : signatureStage hmac providerName provider signatureHeader secret rawBody
      timestamp = Except.error e) :
    e = WErr.invalidSignature providerName ∨ ∃ m, e = WErr.providerError m := by
  unfold signatureStage at h
  split at h
  · exact Or.inl (Except.error.inj h).symm
  · split at h
    · exact Or.inr ⟨_, (Except.error.inj h).symm⟩
    · split at h
      · cases h
      · exact Or.inl (Except.error.inj h).symm

/-- The comparator computes boolean equality of the decoded buffers: a length
mismatch already implies inequality, and `timingSafeEqual` on equal-length
buffers is byte equality. -/
theorem timingSafeCompare_eq_beq (a b : String) (enc : Enc) :
    timingSafeCompare a b enc = (decodeBuf enc a == decodeBuf enc b) := by
  unfold timingSafeCompare timingSafeEqual
  by_cases h : (decodeBuf enc a).length = (decodeBuf enc b).length
  · simp [h]
  · have hne : decodeBuf enc a ≠ decodeBuf enc b := fun hc => h (by rw [hc])
    simp [h, hne]

/-- Claim C6: comparator equality is reflexive (`compare(x,x)` is true for
every string, in particular every validly encoded token) and symmetric
(`compare(x,y) = compare(y,x)` for all strings), for both encodings. -/
theorem timingSafeCompare_refl_symm :
    (∀ (x : String) (enc : Enc), timingSafeCompare x x enc = true) ∧
    (∀ (x y : String) (enc : Enc),
      timingSafeCompare x y enc = timingSafeCompare y x enc) := by
  constructor
  · intro x enc
    rw [timingSafeCompare_eq_beq]
    exact beq_self_eq_true _
  · intro x y enc
    rw [timingSafeCompare_eq_beq, timingSafeCompare_eq_beq]
    simp [beq_iff_eq]
    exact eq_comm

/-- Claim C5: the comparator is total — on every pair of strings and either
encoding it evaluates to a boolean (no exception escapes, the `try/catch`
returns `false`) — and whenever the two decoded buffers differ in length it
returns `false`. -/
theorem timingSafeCompare_total_length_mismatch :
    (∀ (a b : String) (enc : Enc),
      timingSafeCompare a b enc = true ∨ timingSafeCompare a b enc = false) ∧
    (∀ (a b : String) (enc : Enc),
      (decodeBuf enc a).length ≠ (decodeBuf enc b).length →
      timingSafeCompare a b enc = false) := by
  constructor
  · intro a b enc
    cases h : timingSafeCompare a b enc
    · right; rfl
    · left; rfl
  · intro a b enc h
    simp [timingSafeCompare, h]

/-- Witness for C5 at a concrete length mismatch: `"00"` hex-decodes to one
byte, `""` to zero bytes, and the comparator returns `false`. -/
theorem timingSafeCompare_total_length_mismatch_witness :
    (decodeBuf Enc.hex "00").length ≠ (decodeBuf Enc.hex "").length ∧
    timingSafeCompare "00" "" Enc.hex = false :=
  ⟨by decide, timingSafeCompare_total_length_mismatch.2 "00" "" Enc.hex (by decide)⟩

/-- Claim C7: `getProvider` maps each of the five built-in identifiers to the
corresponding provider, requires a configuration for `custom` (failing with a
plain error when it is absent and wrapping it otherwise), and fails with an
unknown-provider error carrying the offending identifier for anything else. -/
theorem getProvider_resolution :
    (∀ cfg, getProvider "stripe" cfg = Except.ok Provider.stripe) ∧
    (∀ cfg, getProvider "github" cfg = Except.ok Provider.github) ∧
    (∀ cfg, getProvider "slack" cfg = Except.ok Provider.slack) ∧
    (∀ cfg, getProvider "shopify" cfg = Except.ok Provider.shopify) ∧
    (∀ cfg, getProvider "twilio" cfg = Except.ok Provider.twilio) ∧
    (getProvider "custom" none = Except.error WErr.customConfigRequired) ∧
    (∀ c, getProvider "custom" (some c) = Except.ok (Provider.custom c)) ∧
    (∀ (n : String) cfg,
      n ∉ ["stripe", "github", "slack", "shopify", "twilio", "custom"] →
      getProvider n cfg = Except.error (WErr.unknownProvider n)) := by
  refine ⟨fun _ => rfl, fun _ => rfl, fun _ => rfl, fun _ => rfl, fun _ => rfl,
    rfl, fun _ => rfl, ?_⟩
  intro n cfg h
  simp only [List.mem_cons, List.mem_singleton, not_or] at h
  obtain ⟨h1, h2, h3, h4, h5, h6, -⟩ := h
  simp [getProvider, h1, h2, h3, h4, h5, h6]

/-- Witness for C7 at the concrete unknown identifier `"paypal"`. -/
theorem getProvider_resolution_witness :
    getProvider "paypal" none = Except.error (WErr.unknownProvider "paypal") :=
  getProvider_resolution.2.2.2.2.2.2.2 "paypal" none (by decide)

/-- Claim C8: the Stripe provider's `computeSignature` feeds the HMAC
primitive the SHA-256 algorithm, hex digest encoding, the secret, and the
payload `"{epochSeconds}.{body}"` built from the supplied timestamp's
floor-divided epoch seconds; without a timestamp it throws. -/
theorem stripe_computeSignature_spec :
    (∀ (hmac : HmacFn) (body secret : String) (v : Int),
      Provider.computeSig hmac Provider.stripe body secret (some (some v)) =
        Except.ok (hmac Alg.sha256 Enc.hex secret
          (toString (Int.fdiv v 1000) ++ "." ++ body))) ∧
    (∀ (hmac : HmacFn) (body secret : String) (d : JsDate),
      Provider.computeSig hmac Provider.stripe body secret (some d) =
        Except.ok (hmac Alg.sha256 Enc.hex secret (epochSecondsStr d ++ "." ++ body))) ∧
    (∀ (hmac : HmacFn) (body secret : String),
      Provider.computeSig hmac Provider.stripe body secret none =
        Except.error "Timestamp is required for Stripe webhook verification") :=
  ⟨fun _ _ _ _ => rfl, fun _ _ _ _ => rfl, fun _ _ _ => rfl⟩

/-- Claim C2: an execution that fails — at any stage — leaves the nonce store
untouched and never performs a `record` operation; equivalently, `record` is
reached only on the success path, after the timing-safe comparison has
accepted the signature. -/
theorem record_only_after_verification
    (hmac : HmacFn) (opts : PluginOpts) (route : RouteOpts) (req : Request)
    (now : Int) (store : NonceStore) (e : WErr)
    (h : (verify hmac opts route req now store).result = Except.error e) :
    (verify hmac opts route req now store).store = store ∧
    ∀ n, StoreOp.record n ∉ (verify hmac opts route req now store).ops := by
  unfold verify at h ⊢
  cases hp : preVerify hmac opts route req now with
  | error e2 => simp
  | ok pre =>
    rw [hp] at h
    cases ht : pre.timestamp with
    | none => simp [ht] at h
    | some d =>
      by_cases hg :
          (opts.replayProtection.enabled
            && (mergeRP opts.replayProtection route.replayProtection).enabled) = true
      · by_cases hh : storeHas store (nonceOf route.provider pre.signature d) = true
        · simp [ht, hg, hh]
        · simp [ht, hg, hh] at h
      · simp [ht, hg] at h

/-- Witness for C2: the concrete failing run of the counterexample scenario
(a Stripe request whose header lacks the `t=` field) records nothing. -/
theorem record_only_after_verification_witness :
    ((verify (fun _ _ _ _ => "ab")
        { providers := [("stripe", "sek")],
          replayProtection := { enabled := true, tolerance := some 300 } }
        { provider := "stripe" }
        { headers := [("stripe-signature", "v1=ab")], rawBody := some "bodytext" }
        1000000 []).store = [] ∧
      ∀ n, StoreOp.record n ∉
        (verify (fun _ _ _ _ => "ab")
          { providers := [("stripe", "sek")],
            replayProtection := { enabled := true, tolerance := some 300 } }
          { provider := "stripe" }
          { headers := [("stripe-signature", "v1=ab")], rawBody := some "bodytext" }
          1000000 []).ops) :=
  record_only_after_verification (fun _ _ _ _ => "ab")
    { providers := [("stripe", "sek")],
      replayProtection := { enabled := true, tolerance := some 300 } }
    { provider := "stripe" }
    { headers := [("stripe-signature", "v1=ab")], rawBody := some "bodytext" }
    1000000 []
    (WErr.providerError "No timestamp found in Stripe-Signature header") (by decide)

/-- Claim C9: with replay protection disabled in the effective per-request
configuration, a successful verification touches the nonce store with no
check or record operation, leaves it unchanged, and verifying the identical
request again yields the same `verified = true` result, still without store
operations. -/
theorem verify_idempotent_replay_disabled
    (hmac : HmacFn) (opts : PluginOpts) (route : RouteOpts) (req : Request)
    (now : Int) (store : NonceStore) (d : WebhookData)
    (hdis : (mergeRP opts.replayProtection route.replayProtection).enabled = false)
    (hok : (verify hmac opts route req now store).result = Except.ok d) :
    d.verified = true ∧
    (verify hmac opts route req now store).store = store ∧
    (verify hmac opts route req now store).ops = [] ∧
    (verify hmac opts route req now
      ((verify hmac opts route req now store).store)).result = Except.ok d ∧
    (verify hmac opts route req now
      ((verify hmac opts route req now store).store)).ops = [] := by
  have hframe : (verify hmac opts route req now store).store = store ∧
      (verify hmac opts route req now store).ops = [] := by
    unfold verify
    cases hp : preVerify hmac opts route req now with
    | error e => simp
    | ok pre =>
      cases ht : pre.timestamp with
      | none => simp [ht]
      | some dd => simp [ht, hdis]
  have hver : d.verified = true := by
    unfold verify at hok
    cases hp : preVerify hmac opts route req now with
    | error e =>
      rw [hp] at hok
      simp at hok
    | ok pre =>
      rw [hp] at hok
      cases ht : pre.timestamp with
      | none =>
        simp [ht] at hok
        subst hok
        rfl
      | some dd =>
        simp [ht, hdis] at hok
        subst hok
        rfl
  refine ⟨hver, hframe.1, hframe.2, ?_, ?_⟩
  · rw [hframe.1]; exact hok
  · rw [hframe.1]; exact hframe.2

/-- Witness for C9: a concrete valid Stripe request verified twice with
replay protection disabled globally (and no route override) succeeds both
times and never touches the store. -/
theorem verify_idempotent_replay_disabled_witness :
    ({ verified := true, provider := "stripe", timestamp := some (some 1000000),
        rawBody := "bodytext", eventType := none } : WebhookData).verified = true ∧
    (verify (fun _ _ _ _ => "ab")
      { providers := [("stripe", "sek")],
        replayProtection := { enabled := false, tolerance := some 300 } }
      { provider := "stripe" }
      { headers := [("stripe-signature", "t=1000,v1=ab")], rawBody := some "bodytext" }
      1000000 []).store = [] ∧
    (verify (fun _ _ _ _ => "ab")
      { providers := [("stripe", "sek")],
        replayProtection := { enabled := false, tolerance := some 300 } }
      { provider := "stripe" }
      { headers := [("stripe-signature", "t=1000,v1=ab")], rawBody := some "bodytext" }
      1000000 []).ops = [] ∧
    (verify (fun _ _ _ _ => "ab")
      { providers := [("stripe", "sek")],
        replayProtection := { enabled := false, tolerance := some 300 } }
      { provider := "stripe" }
      { headers := [("stripe-signature", "t=1000,v1=ab")], rawBody := some "bodytext" }
      1000000
      ((verify (fun _ _ _ _ => "ab")
        { providers := [("stripe", "sek")],
          replayProtection := { enabled := false, tolerance := some 300 } }
        { provider := "stripe" }
        { headers := [("stripe-signature", "t=1000,v1=ab")], rawBody := some "bodytext" }
        1000000 []).store)).result =
      Except.ok { verified := true, provider := "stripe",
                  timestamp := some (some 1000000), rawBody := "bodytext",
                  eventType := none } ∧
    (verify (fun _ _ _ _ => "ab")
      { providers := [("stripe", "sek")],
        replayProtection := { enabled := false, tolerance := some 300 } }
      { provider := "stripe" }
      { headers := [("stripe-signature", "t=1000,v1=ab")], rawBody := some "bodytext" }
      1000000
      ((verify (fun _ _ _ _ => "ab")
        { providers := [("stripe", "sek")],
          replayProtection := { enabled := false, tolerance := some 300 } }
        { provider := "stripe" }
        { headers := [("stripe-signature", "t=1000,v1=ab")], rawBody := some "bodytext" }
        1000000 []).store)).ops = [] :=
  verify_idempotent_replay_disabled (fun _ _ _ _ => "ab")
    { providers := [("stripe", "sek")],
      replayProtection := { enabled := false, tolerance := some 300 } }
    { provider := "stripe" }
    { headers := [("stripe-signature", "t=1000,v1=ab")], rawBody := some "bodytext" }
    1000000 []
    { verified := true, provider := "stripe", timestamp := some (some 1000000),
      rawBody := "bodytext", eventType := none }
    (by decide) (by decide)

/-- Claim C10: the default in-memory store's `has` reports a present nonce as
seen regardless of its stored expiry, so a duplicate arriving after expiry but
before the sweep still fails with ReplayAttack; the periodic cleanup leaves
only entries whose expiry is not in the past. -/
theorem replay_check_ignores_expiry :
    (∀ (store : NonceStore) (nonce : String) (exp : Int),
      store.lookup nonce = some exp → storeHas store nonce = true) ∧
    (∀ (now : Int) (store : NonceStore) (p : String × Int),
      p ∈ storeCleanup now store → ¬ p.2 < now) ∧
    (∀ (hmac : HmacFn) (opts : PluginOpts) (route : RouteOpts) (req : Request)
      (now : Int) (store : NonceStore) (pre : PreOk) (d : JsDate) (exp : Int),
      preVerify hmac opts route req now = Except.ok pre →
      pre.timestamp = some d →
      opts.replayProtection.enabled = true →
      (mergeRP opts.replayProtection route.replayProtection).enabled = true →
      store.lookup (nonceOf route.provider pre.signature d) = some exp →
      exp < now →
      (verify hmac opts route req now store).result =
        Except.error (WErr.replayAttack route.provider)) := by
  refine ⟨?_, ?_, ?_⟩
  · intro store nonce exp h
    unfold storeHas
    rw [h]
    rfl
  · intro now store p hp
    unfold storeCleanup at hp
    rw [List.mem_filter] at hp
    simpa using hp.2
  · intro hmac opts route req now store pre d exp hp ht hg he hl _
    unfold verify
    rw [hp]
    have hh : storeHas store (nonceOf route.provider pre.signature d) = true := by
      unfold storeHas
      rw [hl]
      rfl
    simp [ht, hg, he, hh]

/-- Witness for C10: a nonce whose expiry (999999) already passed by
`now = 1000000` is still present, and the duplicate submission is rejected
with ReplayAttack. -/
theorem replay_check_ignores_expiry_witness :
    (verify (fun _ _ _ _ => "ab")
      { providers := [("stripe", "sek")],
        replayProtection := { enabled := true, tolerance := some 300 } }
      { provider := "stripe" }
      { headers := [("stripe-signature", "t=1000,v1=ab")], rawBody := some "bodytext" }
      1000000 [("stripe:ab:1000000", 999999)]).result =
      Except.error (WErr.replayAttack "stripe") :=
  replay_check_ignores_expiry.2.2 (fun _ _ _ _ => "ab")
    { providers := [("stripe", "sek")],
      replayProtection := { enabled := true, tolerance := some 300 } }
    { provider := "stripe" }
    { headers := [("stripe-signature", "t=1000,v1=ab")], rawBody := some "bodytext" }
    1000000 [("stripe:ab:1000000", 999999)]
    { provider := Provider.stripe, signature := "ab",
      timestamp := some (some 1000000), rawBody := "bodytext" }
    (some 1000000) 999999
    (by rfl) (by rfl) (by rfl) (by rfl) (by rfl) (by decide)

/-- Claim C4: for a request that reached the freshness stage with an
extracted (valid) timestamp and replay protection enabled in the effective
configuration, the handler fails with `TimestampExpired` — carrying the
timestamp and the configured tolerance (seconds, default 300) — exactly when
`|now − timestamp|` exceeds the tolerance in milliseconds; when the provider
yields no timestamp the freshness check is skipped and `TimestampExpired` is
never raised. -/
theorem timestamp_freshness_iff
    (hmac : HmacFn) (opts : PluginOpts) (route : RouteOpts) (req : Request)
    (now : Int) (store : NonceStore) (secret rawBody : String)
    (provider : Provider) (hv : String)
    (hs : resolveSecret opts route = Except.ok secret)
    (hb : req.rawBody = some rawBody)
    (hpv : getProvider route.provider route.customConfig = Except.ok provider)
    (hh : truthyHeader req.headers provider.sigHeader = some hv)
    (hrp : (mergeRP opts.replayProtection route.replayProtection).enabled = true) :
    (∀ v : Int,
      extractTimestampStep provider route.provider req hv = Except.ok (some (some v)) →
      ((verify hmac opts route req now store).result =
        Except.error (WErr.timestampExpired route.provider (some v)
          ((mergeRP opts.replayProtection route.replayProtection).tolerance.getD 300)) ↔
        ((mergeRP opts.replayProtection route.replayProtection).tolerance.getD 300) * 1000 <
          |now - v|)) ∧
    (extractTimestampStep provider route.provider req hv = Except.ok none →
      ∀ (d : JsDate) (tol : Int),
        (verify hmac opts route req now store).result ≠
          Except.error (WErr.timestampExpired route.provider d tol)) := by
  constructor
  · intro v hts
    unfold verify preVerify
    simp only [hs, hb, hpv, hh, hts]
    by_cases hexp : jsAbsGt now (some v)
        (((mergeRP opts.replayProtection route.replayProtection).tolerance.getD 300) * 1000) = true
    · simp only [freshnessCheck, hrp, hexp, Bool.and_self, if_pos]
      unfold jsAbsGt at hexp
      simp only [decide_eq_true_eq] at hexp
      simp [hexp]
    · have hrhs : ¬ ((mergeRP opts.replayProtection route.replayProtection).tolerance.getD 300)
          * 1000 < |now - v| := by
        unfold jsAbsGt at hexp
        simpa using hexp
      rw [Bool.not_eq_true] at hexp
      simp only [freshnessCheck, hrp, hexp, Bool.true_and, Bool.false_eq_true, if_false]
      constructor
      · intro hres
        exfalso
        revert hres
        split
        · rename_i e heq
          rcases signatureStage_error_shape heq with h1 | ⟨m, h1⟩ <;> subst h1 <;> simp
        · rename_i pre heq
          split <;> first
            | (split_ifs <;> simp)
            | simp
      · intro hc
        exact absurd hc hrhs
  · intro hts d tol
    unfold verify preVerify
    simp only [hs, hb, hpv, hh, hts]
    simp only [freshnessCheck]
    split
    · rename_i e heq
      rcases signatureStage_error_shape heq with h1 | ⟨m, h1⟩ <;> subst h1 <;> simp
    · rename_i pre heq
      split <;> first
        | (split_ifs <;> simp)
        | simp

/-- Witness for C4: a Stripe request stamped `t=1000` checked at
`now = 10000000000` ms is outside the 300 s default tolerance and fails with
`TimestampExpired` carrying the timestamp and the tolerance. -/
theorem timestamp_freshness_iff_witness :
    (verify (fun _ _ _ _ => "ab")
      { providers := [("stripe", "sek")],
        replayProtection := { enabled := true, tolerance := some 300 } }
      { provider := "stripe" }
      { headers := [("stripe-signature", "t=1000,v1=ab")], rawBody := some "bodytext" }
      10000000000 []).result =
      Except.error (WErr.timestampExpired "stripe" (some 1000000) 300) :=
  ((timestamp_freshness_iff (fun _ _ _ _ => "ab")
    { providers := [("stripe", "sek")],
      replayProtection := { enabled := true, tolerance := some 300 } }
    { provider := "stripe" }
    { headers := [("stripe-signature", "t=1000,v1=ab")], rawBody := some "bodytext" }
    10000000000 [] "sek" "bodytext" Provider.stripe "t=1000,v1=ab"
    (by rfl) (by rfl) (by rfl) (by rfl) (by rfl)).1 1000000 (by rfl)).mpr (by decide)

/-- Claim C1, as amended: of the provider-level parse/format failures, only a
thrown signature-token extraction is caught and mapped to `InvalidSignature`;
a failing `computeSignature` (Stripe or Slack invoked without a timestamp)
propagates to the caller as the raw provider error, and so does a failing
Stripe timestamp parse (see the counterexample). -/
theorem extract_error_maps_invalid_signature
    (hmac : HmacFn) (opts : PluginOpts) (route : RouteOpts) (req : Request)
    (now : Int) (store : NonceStore) (secret rawBody : String)
    (provider : Provider) (hv : String) (ts : Option JsDate)
    (hs : resolveSecret opts route = Except.ok secret)
    (hb : req.rawBody = some rawBody)
    (hpv : getProvider route.provider route.customConfig = Except.ok provider)
    (hh : truthyHeader req.headers provider.sigHeader = some hv)
    (hts : extractTimestampStep provider route.provider req hv = Except.ok ts)
    (hfresh : freshnessCheck route.provider
      (mergeRP opts.replayProtection route.replayProtection) now ts = none) :
    (∀ m, provider.extractSig hv = Except.error m →
      (verify hmac opts route req now store).result =
        Except.error (WErr.invalidSignature route.provider)) ∧
    (∀ sig m, provider.extractSig hv = Except.ok sig →
      provider.computeSig hmac rawBody secret ts = Except.error m →
      (verify hmac opts route req now store).result =
        Except.error (WErr.providerError m)) := by
  constructor
  · intro m hx
    unfold verify preVerify signatureStage
    simp only [hs, hb, hpv, hh, hts, hfresh, hx]
  · intro sig m hx hc
    unfold verify preVerify signatureStage
    simp only [hs, hb, hpv, hh, hts, hfresh, hx, hc]

/-- Witness for C1 (amended): a GitHub header without the `sha256=` marker
makes `extractSignature` throw, and the handler reports `InvalidSignature`. -/
theorem extract_error_maps_invalid_signature_witness :
    (verify (fun _ _ _ _ => "ab")
      { providers := [("github", "gsek")],
        replayProtection := { enabled := true, tolerance := some 300 } }
      { provider := "github" }
      { headers := [("x-hub-signature-256", "bogus")], rawBody := some "bodytext" }
      0 []).result = Except.error (WErr.invalidSignature "github") :=
  (extract_error_maps_invalid_signature (fun _ _ _ _ => "ab")
    { providers := [("github", "gsek")],
      replayProtection := { enabled := true, tolerance := some 300 } }
    { provider := "github" }
    { headers := [("x-hub-signature-256", "bogus")], rawBody := some "bodytext" }
    0 [] "gsek" "bodytext" Provider.github "bogus" none
    (by rfl) (by rfl) (by rfl) (by rfl) (by rfl) (by rfl)).1
    "Invalid GitHub signature format" (by rfl)

/-- Counterexample to C1 as stated: a Stripe request whose signature header
carries a `v1=` token but no `t=` field fails timestamp parsing inside the
provider, and the raw parse error — not `InvalidSignature` — reaches the
caller. -/
theorem stripe_missing_timestamp_raw_error_counterexample :
    (verify (fun _ _ _ _ => "ab")
      { providers := [("stripe", "sek")],
        replayProtection := { enabled := true, tolerance := some 300 } }
      { provider := "stripe" }
      { headers := [("stripe-signature", "v1=ab")], rawBody := some "bodytext" }
      1000000 []).result =
      Except.error (WErr.providerError "No timestamp found in Stripe-Signature header") ∧
    (verify (fun _ _ _ _ => "ab")
      { providers := [("stripe", "sek")],
        replayProtection := { enabled := true, tolerance := some 300 } }
      { provider := "stripe" }
      { headers := [("stripe-signature", "v1=ab")], rawBody := some "bodytext" }
      1000000 []).result ≠
      Except.error (WErr.invalidSignature "stripe") :=
  ⟨by decide, by decide⟩

/-- Claim C3, as amended: when replay protection is enabled globally (so the
plugin created a guard) and in the effective per-request configuration, and a
timestamp was extracted, the first verification of an unseen
provider+signature+timestamp triple succeeds and records its nonce (expiry
`now + globalTolerance·1000`), and a second verification of the identical
triple fails with `ReplayAttack`. -/
theorem replay_first_records_second_rejects
    (hmac : HmacFn) (opts : PluginOpts) (route : RouteOpts) (req : Request)
    (now : Int) (store : NonceStore) (pre : PreOk) (d : JsDate)
    (hg : opts.replayProtection.enabled = true)
    (he : (mergeRP opts.replayProtection route.replayProtection).enabled = true)
    (hp : preVerify hmac opts route req now = Except.ok pre)
    (ht : pre.timestamp = some d)
    (hnew : storeHas store (nonceOf route.provider pre.signature d) = false) :
    verify hmac opts route req now store =
      { result := Except.ok (mkData route req pre),
        store := storeSet store (nonceOf route.provider pre.signature d)
          (now + (opts.replayProtection.tolerance.getD 300) * 1000),
        ops := [StoreOp.check (nonceOf route.provider pre.signature d),
                StoreOp.record (nonceOf route.provider pre.signature d)] } ∧
    (verify hmac opts route req now
      (storeSet store (nonceOf route.provider pre.signature d)
        (now + (opts.replayProtection.tolerance.getD 300) * 1000))).result =
      Except.error (WErr.replayAttack route.provider) := by
  constructor
  · unfold verify
    rw [hp]
    simp [ht, hg, he, hnew]
  · unfold verify
    rw [hp]
    simp [ht, hg, he, storeHas_storeSet_self]

/-- Witness for C3 (amended): the concrete Stripe triple
`stripe : ab : 1000000` is recorded on first verification and rejected as a
replay on the second. -/
theorem replay_first_records_second_rejects_witness :
    verify (fun _ _ _ _ => "ab")
      { providers := [("stripe", "sek")],
        replayProtection := { enabled := true, tolerance := some 300 } }
      { provider := "stripe" }
      { headers := [("stripe-signature", "t=1000,v1=ab")], rawBody := some "bodytext" }
      1000000 [] =
      { result := Except.ok { verified := true, provider := "stripe",
                              timestamp := some (some 1000000), rawBody := "bodytext",
                              eventType := none },
        store := [("stripe:ab:1000000", 1300000)],
        ops := [StoreOp.check "stripe:ab:1000000", StoreOp.record "stripe:ab:1000000"] } ∧
    (verify (fun _ _ _ _ => "ab")
      { providers := [("stripe", "sek")],
        replayProtection := { enabled := true, tolerance := some 300 } }
      { provider := "stripe" }
      { headers := [("stripe-signature", "t=1000,v1=ab")], rawBody := some "bodytext" }
      1000000 [("stripe:ab:1000000", 1300000)]).result =
      Except.error (WErr.replayAttack "stripe") :=
  replay_first_records_second_rejects (fun _ _ _ _ => "ab")
    { providers := [("stripe", "sek")],
      replayProtection := { enabled := true, tolerance := some 300 } }
    { provider := "stripe" }
    { headers := [("stripe-signature", "t=1000,v1=ab")], rawBody := some "bodytext" }
    1000000 []
    { provider := Provider.stripe, signature := "ab",
      timestamp := some (some 1000000), rawBody := "bodytext" }
    (some 1000000)
    (by rfl) (by rfl) (by rfl) (by rfl) (by rfl)

/-- Counterexample to C3 as stated: with replay protection disabled globally
but enabled by the per-route override, the effective configuration is enabled,
yet no guard exists — the first verification records nothing and the
identical second submission succeeds instead of failing with ReplayAttack. -/
theorem route_enabled_replay_without_global_guard_counterexample :
    (mergeRP { enabled := false, tolerance := some 300 }
      (some { enabled := some true })).enabled = true ∧
    (verify (fun _ _ _ _ => "ab")
      { providers := [("stripe", "sek")],
        replayProtection := { enabled := false, tolerance := some 300 } }
      { provider := "stripe", replayProtection := some { enabled := some true } }
      { headers := [("stripe-signature", "t=1000,v1=ab")], rawBody := some "bodytext" }
      1000000 []).ops = [] ∧
    (verify (fun _ _ _ _ => "ab")
      { providers := [("stripe", "sek")],
        replayProtection := { enabled := false, tolerance := some 300 } }
      { provider := "stripe", replayProtection := some { enabled := some true } }
      { headers := [("stripe-signature", "t=1000,v1=ab")], rawBody := some "bodytext" }
      1000000 []).store = [] ∧
    (verify (fun _ _ _ _ => "ab")
      { providers := [("stripe", "sek")],
        replayProtection := { enabled := false, tolerance := some 300 } }
      { provider := "stripe", replayProtection := some { enabled := some true } }
      { headers := [("stripe-signature", "t=1000,v1=ab")], rawBody := some "bodytext" }
      1000000 []).result =
      Except.ok { verified := true, provider := "stripe",
                  timestamp := some (some 1000000), rawBody := "bodytext",
                  eventType := none } ∧
    (verify (fun _ _ _ _ => "ab")
      { providers := [("stripe", "sek")],
        replayProtection := { enabled := false, tolerance := some 300 } }
      { provider := "stripe", replayProtection := some { enabled := some true } }
      { headers := [("stripe-signature", "t=1000,v1=ab")], rawBody := some "bodytext" }
      1000000
      ((verify (fun _ _ _ _ => "ab")
        { providers := [("stripe", "sek")],
          replayProtection := { enabled := false, tolerance := some 300 } }
        { provider := "stripe", replayProtection := some { enabled := some true } }
        { headers := [("stripe-signature", "t=1000,v1=ab")], rawBody := some "bodytext" }
        1000000 []).store)).result ≠
      Except.error (WErr.replayAttack "stripe") :=
  ⟨by decide, by decide, by decide, by decide, by decide⟩

end FWV
